import Mathlib

/-
Verification of the risk-scoring and population-filtering engine of the
Alzheimer's-dataset dashboard (src/app_pages/dashboard.py).

The patient table is embedded as a list of records.  A pandas cell that may
be missing or NaN is embedded as `Option ℚ` (`none` = absent/NaN); Python
comparisons against NaN are all false, which the `py*` helpers reproduce.
Boolean-like categorical columns keep their raw string value, and the
source's truthiness test `str(v).lower() in ['yes','1','true']` is embedded
as `truthy`.
-/

namespace Dashboard

/-- Python semantics of `v < c` where `v` may be NaN/missing: NaN compares false. -/
def pyLt (v : Option ℚ) (c : ℚ) : Bool :=
  match v with
  | some x => decide (x < c)
  | none => false

/-- Python semantics of `v <= c` where `v` may be NaN/missing. -/
def pyLe (v : Option ℚ) (c : ℚ) : Bool :=
  match v with
  | some x => decide (x ≤ c)
  | none => false

/-- Python semantics of `v > c` where `v` may be NaN/missing. -/
def pyGt (v : Option ℚ) (c : ℚ) : Bool :=
  match v with
  | some x => decide (c < x)
  | none => false

/-- Python semantics of `v >= c` where `v` may be NaN/missing. -/
def pyGe (v : Option ℚ) (c : ℚ) : Bool :=
  match v with
  | some x => decide (c ≤ x)
  | none => false

/-- Lowercasing done character by character, the effect of Python's
`str.lower()` on the ASCII cell values in play. -/
def lowerString (s : String) : String :=
  String.mk (s.data.map Char.toLower)

/-- Embedding of the source's `str(value).lower() in ['yes', '1', 'true']`. -/
def truthy (s : String) : Bool :=
  lowerString s = "yes" || lowerString s = "1" || lowerString s = "true"

/-- One row of the patient table.  Numeric cells that the source reads through
a `pd.notna` / column-presence guard, or that can be NaN, are `Option ℚ`;
guarded categorical columns are `Option String` holding the raw cell text. -/
structure Patient where
  gender : String
  ethnicity : String
  patientAge : Option ℚ
  mmse : Option ℚ
  bmi : Option ℚ
  functionalAssessment : Option ℚ
  activitiesOfDailyLiving : Option ℚ
  depression : Option String
  memoryComplaints : Option String
  behavioralProblems : Option String
  personalityChanges : Option String
  difficultyCompletingTasks : Option String
  cardiovascularDisease : Option String
  physicalActivity : Option ℚ
  smoking : Option String
  alcoholConsumption : Option ℚ
  dietQuality : Option ℚ
  diagnosis : Option String
deriving Repr, DecidableEq

/-- Age factor of `calculate_risk_score` (dashboard.py lines 22-32). -/
def ageRisk (a : Option ℚ) : ℚ :=
  if pyGe a 85 then 7/2
  else if pyGe a 80 then 3
  else if pyGe a 75 then 5/2
  else if pyGe a 70 then 2
  else 1

/-- MMSE factor of `calculate_risk_score` (lines 34-44). -/
def mmseRisk (m : Option ℚ) : ℚ :=
  if pyLt m 10 then 7/2
  else if pyLt m 18 then 3
  else if pyLt m 24 then 2
  else if pyLt m 27 then 1
  else 1/2

/-- Functional-assessment factor (lines 46-55); the source only enters the
ladder when the column is present and the value is not NaN. -/
def functionalRisk (f : Option ℚ) : ℚ :=
  match f with
  | none => 0
  | some v =>
    if v ≤ 2 then 2
    else if v ≤ 4 then 3/2
    else if v ≤ 6 then 1
    else 1/2

/-- Activities-of-daily-living factor (lines 57-64). -/
def adlRisk (f : Option ℚ) : ℚ :=
  match f with
  | none => 0
  | some v =>
    if v ≤ 2 then 3/2
    else if v ≤ 5 then 1
    else 3/10

/-- Depression factor (lines 66-71). -/
def depressionRisk (s : Option String) : ℚ :=
  match s with
  | none => 0
  | some v => if truthy v then 6/5 else 1/5

/-- Memory-complaints factor (lines 73-78). -/
def memoryRisk (s : Option String) : ℚ :=
  match s with
  | none => 0
  | some v => if truthy v then 6/5 else 1/10

/-- Behavioral-problems factor (lines 80-83). -/
def behavioralRisk (s : Option String) : ℚ :=
  match s with
  | none => 0
  | some v => if truthy v then 4/5 else 0

/-- Personality-changes factor (lines 85-88). -/
def personalityRisk (s : Option String) : ℚ :=
  match s with
  | none => 0
  | some v => if truthy v then 4/5 else 0

/-- Difficulty-completing-tasks factor (lines 90-93). -/
def tasksRisk (s : Option String) : ℚ :=
  match s with
  | none => 0
  | some v => if truthy v then 4/5 else 0

/-- BMI factor (lines 95-101); the raw cell is compared directly, so a NaN
BMI falls through to the final else branch. -/
def bmiRisk (b : Option ℚ) : ℚ :=
  if pyGt b 35 || pyLt b (37/2) then 4/5
  else if pyGt b 30 || pyLt b 20 then 1/2
  else 1/5

/-- Cardiovascular-disease factor (lines 103-106). -/
def cvdRisk (s : Option String) : ℚ :=
  match s with
  | none => 0
  | some v => if truthy v then 3/5 else 0

/-- Physical-activity factor (lines 108-115). -/
def activityRisk (f : Option ℚ) : ℚ :=
  match f with
  | none => 0
  | some v =>
    if v < 2 then 3/5
    else if v < 4 then 2/5
    else 1/10

/-- Smoking factor (lines 117-120). -/
def smokingRisk (s : Option String) : ℚ :=
  match s with
  | none => 0
  | some v => if truthy v then 2/5 else 0

/-- Diet-quality factor (lines 122-128). -/
def dietRisk (f : Option ℚ) : ℚ :=
  match f with
  | none => 0
  | some v =>
    if v < 4 then 2/5
    else if v < 6 then 1/5
    else 0

/-- The accumulated score before the final `round(risk_score, 2)`. -/
def rawRiskScore (r : Patient) : ℚ :=
  ageRisk r.patientAge + mmseRisk r.mmse + functionalRisk r.functionalAssessment +
    adlRisk r.activitiesOfDailyLiving + depressionRisk r.depression +
    memoryRisk r.memoryComplaints + behavioralRisk r.behavioralProblems +
    personalityRisk r.personalityChanges + tasksRisk r.difficultyCompletingTasks +
    bmiRisk r.bmi + cvdRisk r.cardiovascularDisease +
    activityRisk r.physicalActivity + smokingRisk r.smoking +
    dietRisk r.dietQuality

/-- Round-half-to-even on ℚ, the tie-breaking Python's builtin `round` uses. -/
def roundHalfEven (q : ℚ) : ℤ :=
  if q - ⌊q⌋ < 1/2 then ⌊q⌋
  else if q - ⌊q⌋ > 1/2 then ⌊q⌋ + 1
  else if 2 ∣ ⌊q⌋ then ⌊q⌋ else ⌊q⌋ + 1

/-- Embedding of Python's `round(x, 2)`. -/
def pyRound2 (q : ℚ) : ℚ := (roundHalfEven (q * 100) : ℚ) / 100

/-- Embedding of `calculate_risk_score` (dashboard.py lines 14-130). -/
def calculate_risk_score (r : Patient) : ℚ :=
  pyRound2 (rawRiskScore r)

/-- Embedding of `categorize_risk` (dashboard.py lines 132-142). -/
def categorize_risk (score : ℚ) : String :=
  if score ≥ 9 then "High Risk"
  else if score ≥ 6 then "Medium Risk"
  else "Low Risk"

/-- Embedding of the early-detection flag (dashboard.py lines 461-466):
a disjunction of pandas columnwise comparisons, so NaN cells never trigger
a clause. -/
def earlyDetectionFlag (r : Patient) : Bool :=
  pyLt r.mmse 18 || pyGt r.patientAge 75 || pyGt r.bmi 35 ||
    pyLe r.functionalAssessment 3

/-- Age bucket severity used to state the monotonicity property: index of the
branch of the age ladder that fires (4 = most severe, boundaries 85/80/75/70). -/
def ageBucket (a : Option ℚ) : ℕ :=
  if pyGe a 85 then 4
  else if pyGe a 80 then 3
  else if pyGe a 75 then 2
  else if pyGe a 70 then 1
  else 0

/-- Point value of each age bucket, the ladder of dashboard.py lines 22-32. -/
def bucketValue (n : ℕ) : ℚ :=
  if n = 4 then 7/2
  else if n = 3 then 3
  else if n = 2 then 5/2
  else if n = 1 then 2
  else 1

/-- The filter configuration the dashboard widgets hand to the filtering code
(dashboard.py lines 163-283).  A categorical selection is the chosen value or
"All"; `has*` mirrors the source's `in df.columns` guards; a range slider for
an optional column is `none` exactly when the column is absent. -/
structure FilterConfig where
  selectedGender : String
  selectedEthnicity : String
  ageRange : ℚ × ℚ
  hasCvd : Bool
  selectedCvd : String
  selectedDepression : String
  hasMemory : Bool
  selectedMemory : String
  hasBehavior : Bool
  selectedBehavior : String
  hasPersonality : Bool
  selectedPersonality : String
  hasTasks : Bool
  selectedTasks : String
  selectedSmoking : String
  bmiRange : ℚ × ℚ
  activityRange : Option (ℚ × ℚ)
  alcoholRange : Option (ℚ × ℚ)
  dietRange : Option (ℚ × ℚ)
  mmseRange : ℚ × ℚ
  funcRange : Option (ℚ × ℚ)
  adlRange : Option (ℚ × ℚ)
  hasDiagnosis : Bool
  selectedDiagnosis : String
deriving Repr, DecidableEq

/-- One guarded categorical filter step: `if <active>: filtered = filtered[mask]`. -/
def catStep (active : Prop) [Decidable active] (p : Patient → Bool) (l : List Patient) :
    List Patient :=
  if active then l.filter p else l

/-- The row predicate of one numeric range mask, e.g.
`(df["X"] >= lo) & (df["X"] <= hi)`; a NaN cell fails both comparisons. -/
def rangePass (f : Patient → Option ℚ) (rg : ℚ × ℚ) (r : Patient) : Bool :=
  pyGe (f r) rg.1 && pyLe (f r) rg.2

/-- An always-applied numeric range filter step (age, BMI, MMSE). -/
def rangeStep (f : Patient → Option ℚ) (rg : ℚ × ℚ) (l : List Patient) : List Patient :=
  l.filter (rangePass f rg)

/-- A range filter step for an optional column: skipped when the column is
absent (the slider tuple is `None`). -/
def optRangeStep (f : Patient → Option ℚ) (o : Option (ℚ × ℚ)) (l : List Patient) :
    List Patient :=
  match o with
  | none => l
  | some rg => rangeStep f rg l

/-- Embedding of the filter cascade of dashboard.py lines 285-365, one step
per source statement, in source order. -/
def applyFilters (cfg : FilterConfig) (rows : List Patient) : List Patient :=
  let l1 := catStep (cfg.selectedGender ≠ "All")
    (fun r => decide (r.gender = cfg.selectedGender)) rows
  let l2 := catStep (cfg.selectedEthnicity ≠ "All")
    (fun r => decide (r.ethnicity = cfg.selectedEthnicity)) l1
  let l3 := rangeStep Patient.patientAge cfg.ageRange l2
  let l4 := catStep (cfg.selectedCvd ≠ "All" ∧ cfg.hasCvd = true)
    (fun r => decide (r.cardiovascularDisease = some cfg.selectedCvd)) l3
  let l5 := catStep (cfg.selectedDepression ≠ "All")
    (fun r => decide (r.depression = some cfg.selectedDepression)) l4
  let l6 := catStep (cfg.selectedMemory ≠ "All" ∧ cfg.hasMemory = true)
    (fun r => decide (r.memoryComplaints = some cfg.selectedMemory)) l5
  let l7 := catStep (cfg.selectedBehavior ≠ "All" ∧ cfg.hasBehavior = true)
    (fun r => decide (r.behavioralProblems = some cfg.selectedBehavior)) l6
  let l8 := catStep (cfg.selectedPersonality ≠ "All" ∧ cfg.hasPersonality = true)
    (fun r => decide (r.personalityChanges = some cfg.selectedPersonality)) l7
  let l9 := catStep (cfg.selectedTasks ≠ "All" ∧ cfg.hasTasks = true)
    (fun r => decide (r.difficultyCompletingTasks = some cfg.selectedTasks)) l8
  let l10 := catStep (cfg.selectedSmoking ≠ "All")
    (fun r => decide (r.smoking = some cfg.selectedSmoking)) l9
  let l11 := rangeStep Patient.bmi cfg.bmiRange l10
  let l12 := optRangeStep Patient.physicalActivity cfg.activityRange l11
  let l13 := optRangeStep Patient.alcoholConsumption cfg.alcoholRange l12
  let l14 := optRangeStep Patient.dietQuality cfg.dietRange l13
  let l15 := rangeStep Patient.mmse cfg.mmseRange l14
  let l16 := optRangeStep Patient.functionalAssessment cfg.funcRange l15
  let l17 := optRangeStep Patient.activitiesOfDailyLiving cfg.adlRange l16
  catStep (cfg.selectedDiagnosis ≠ "All" ∧ cfg.hasDiagnosis = true)
    (fun r => decide (r.diagnosis = some cfg.selectedDiagnosis)) l17

/-- The per-row predicate of one guarded categorical step. -/
def catPass (active : Prop) [Decidable active] (p : Patient → Bool) (r : Patient) : Bool :=
  !(decide active) || p r

/-- The per-row predicate of one optional range step. -/
def optRangePass (f : Patient → Option ℚ) (o : Option (ℚ × ℚ)) (r : Patient) : Bool :=
  match o with
  | none => true
  | some rg => rangePass f rg r

/-- The conjunction of all active constraints of a configuration, one conjunct
per filter step of `applyFilters`, in the same order. -/
def rowPasses (cfg : FilterConfig) (r : Patient) : Bool :=
  catPass (cfg.selectedGender ≠ "All") (fun x => decide (x.gender = cfg.selectedGender)) r &&
  catPass (cfg.selectedEthnicity ≠ "All") (fun x => decide (x.ethnicity = cfg.selectedEthnicity)) r &&
  rangePass Patient.patientAge cfg.ageRange r &&
  catPass (cfg.selectedCvd ≠ "All" ∧ cfg.hasCvd = true)
    (fun x => decide (x.cardiovascularDisease = some cfg.selectedCvd)) r &&
  catPass (cfg.selectedDepression ≠ "All")
    (fun x => decide (x.depression = some cfg.selectedDepression)) r &&
  catPass (cfg.selectedMemory ≠ "All" ∧ cfg.hasMemory = true)
    (fun x => decide (x.memoryComplaints = some cfg.selectedMemory)) r &&
  catPass (cfg.selectedBehavior ≠ "All" ∧ cfg.hasBehavior = true)
    (fun x => decide (x.behavioralProblems = some cfg.selectedBehavior)) r &&
  catPass (cfg.selectedPersonality ≠ "All" ∧ cfg.hasPersonality = true)
    (fun x => decide (x.personalityChanges = some cfg.selectedPersonality)) r &&
  catPass (cfg.selectedTasks ≠ "All" ∧ cfg.hasTasks = true)
    (fun x => decide (x.difficultyCompletingTasks = some cfg.selectedTasks)) r &&
  catPass (cfg.selectedSmoking ≠ "All")
    (fun x => decide (x.smoking = some cfg.selectedSmoking)) r &&
  rangePass Patient.bmi cfg.bmiRange r &&
  optRangePass Patient.physicalActivity cfg.activityRange r &&
  optRangePass Patient.alcoholConsumption cfg.alcoholRange r &&
  optRangePass Patient.dietQuality cfg.dietRange r &&
  rangePass Patient.mmse cfg.mmseRange r &&
  optRangePass Patient.functionalAssessment cfg.funcRange r &&
  optRangePass Patient.activitiesOfDailyLiving cfg.adlRange r &&
  catPass (cfg.selectedDiagnosis ≠ "All" ∧ cfg.hasDiagnosis = true)
    (fun x => decide (x.diagnosis = some cfg.selectedDiagnosis)) r

/-- Minimum of a list of cell values, mirroring pandas `Series.min` which
skips NaN (the `filterMap` below drops `none` cells before this is applied). -/
def listMin : List ℚ → Option ℚ
  | [] => none
  | x :: xs => some (xs.foldl min x)

/-- Maximum of a list of cell values, mirroring pandas `Series.max`. -/
def listMax : List ℚ → Option ℚ
  | [] => none
  | x :: xs => some (xs.foldl max x)

/-- Observed minimum of a column over the table, as the sliders compute it. -/
def fieldMin (f : Patient → Option ℚ) (rows : List Patient) : ℚ :=
  (listMin (rows.filterMap f)).getD 0

/-- Observed maximum of a column over the table. -/
def fieldMax (f : Patient → Option ℚ) (rows : List Patient) : ℚ :=
  (listMax (rows.filterMap f)).getD 0

/-- The full observed range of a column, the default slider position. -/
def fullRange (f : Patient → Option ℚ) (rows : List Patient) : ℚ × ℚ :=
  (fieldMin f rows, fieldMax f rows)

/-- The configuration in which every categorical selection is "All" and every
range slider sits at the field's full observed range. -/
def noOpConfig (rows : List Patient) : FilterConfig where
  selectedGender := "All"
  selectedEthnicity := "All"
  ageRange := fullRange Patient.patientAge rows
  hasCvd := true
  selectedCvd := "All"
  selectedDepression := "All"
  hasMemory := true
  selectedMemory := "All"
  hasBehavior := true
  selectedBehavior := "All"
  hasPersonality := true
  selectedPersonality := "All"
  hasTasks := true
  selectedTasks := "All"
  selectedSmoking := "All"
  bmiRange := fullRange Patient.bmi rows
  activityRange := some (fullRange Patient.physicalActivity rows)
  alcoholRange := some (fullRange Patient.alcoholConsumption rows)
  dietRange := some (fullRange Patient.dietQuality rows)
  mmseRange := fullRange Patient.mmse rows
  funcRange := some (fullRange Patient.functionalAssessment rows)
  adlRange := some (fullRange Patient.activitiesOfDailyLiving rows)
  hasDiagnosis := true
  selectedDiagnosis := "All"

/-- A record in which every numeric cell the range filters look at is an
actual number (not NaN). -/
def numericPresent (r : Patient) : Prop :=
  r.patientAge.isSome = true ∧ r.mmse.isSome = true ∧ r.bmi.isSome = true ∧
  r.functionalAssessment.isSome = true ∧ r.activitiesOfDailyLiving.isSome = true ∧
  r.physicalActivity.isSome = true ∧ r.alcoholConsumption.isSome = true ∧
  r.dietQuality.isSome = true

instance (r : Patient) : Decidable (numericPresent r) := by
  unfold numericPresent
  infer_instance

/-- A filtered row with the three derived columns attached (dashboard.py
lines 457-466); the derived values live here, next to a copy of the record,
never in the source table. -/
structure AnnotatedRow where
  patient : Patient
  riskScore : ℚ
  riskCategory : String
  earlyDetection : Bool
deriving Repr, DecidableEq

/-- Attach the three derived columns to one filtered record. -/
def annotate (r : Patient) : AnnotatedRow :=
  { patient := r
    riskScore := calculate_risk_score r
    riskCategory := categorize_risk (calculate_risk_score r)
    earlyDetection := earlyDetectionFlag r }

/-- The fixed variable list the correlation heatmap starts from
(dashboard.py lines 623-628). -/
def risk_variables : List String :=
  ["Patient_Age", "MMSE", "BMI", "Cholesterol_Total",
   "Functional_Assessment", "Physical_Activity",
   "Alcohol_Consumption", "Diet_Quality", "Activities_Of_Daily_Living",
   "Risk_Score"]

/-- Embedding of `[var for var in risk_variables if var in filtered_df.columns]`. -/
def availableVars (cols : List String) : List String :=
  risk_variables.filter fun v => cols.contains v

/-- What the correlation section renders: a heatmap of the available
variables over the current sample, or the too-few-variables warning. -/
inductive CorrelationOutcome where
  | heatmapShown (vars : List String) (sampleSize : ℕ)
  | notEnoughVariables
deriving Repr, DecidableEq

/-- Embedding of the correlation gate (dashboard.py lines 633-709): the
heatmap is computed and shown whenever at least 3 of the fixed variables are
columns of the filtered table. -/
def correlationSection (cols : List String) (filtered : List AnnotatedRow) :
    CorrelationOutcome :=
  if 3 ≤ (availableVars cols).length then
    CorrelationOutcome.heatmapShown (availableVars cols) filtered.length
  else
    CorrelationOutcome.notEnoughVariables

/-- What the key-correlation-insights expander renders (lines 682-707). -/
inductive InsightOutcome where
  | strongestShown
  | notEnoughData
deriving Repr, DecidableEq

/-- Embedding of the insights gate `if len(filtered_df) > 10` (line 683). -/
def correlationInsights (filtered : List AnnotatedRow) : InsightOutcome :=
  if 10 < filtered.length then InsightOutcome.strongestShown
  else InsightOutcome.notEnoughData

/-- The aggregate numbers the dashboard derives from a non-empty filtered
population (dashboard.py lines 469-487 and 633-709). -/
structure Summary where
  totalPatients : ℕ
  highRiskCount : ℕ
  highRiskPct : ℚ
  earlyDetectionCount : ℕ
  earlyDetectionPct : ℚ
  avgRiskScore : ℚ
  correlation : CorrelationOutcome
deriving Repr, DecidableEq

/-- Compute the aggregate summary of an annotated filtered population. -/
def summarize (filtered : List AnnotatedRow) (cols : List String) : Summary :=
  let total := filtered.length
  let highRisk := (filtered.filter fun a => decide (a.riskCategory = "High Risk")).length
  let flags := (filtered.filter fun a => a.earlyDetection).length
  { totalPatients := total
    highRiskCount := highRisk
    highRiskPct := if 0 < total then (highRisk : ℚ) / total * 100 else 0
    earlyDetectionCount := flags
    earlyDetectionPct := if 0 < total then (flags : ℚ) / total * 100 else 0
    avgRiskScore := (filtered.map AnnotatedRow.riskScore).sum / total
    correlation := correlationSection cols filtered }

/-- The columns the recomputation pass appends to its copy of the table. -/
def derivedColumns : List String :=
  ["Risk_Score", "Risk_Category", "Early_Detection_Flag"]

/-- What one full recomputation pass renders and returns. -/
inductive PassResult where
  | emptyState (returned : List Patient)
  | report (summary : Summary) (returned : List AnnotatedRow)
deriving Repr, DecidableEq

/-- The process-lifetime shared state: the source table `df` loaded once at
module load time (dashboard.py line 11) and its column set. -/
structure SharedState where
  df : List Patient
  cols : List String
deriving Repr, DecidableEq

/-- Embedding of one full pass of `risk_assessment_dashboard`
(dashboard.py lines 144-788): filter a copy of the shared table, bail out to
the empty state returning the unfiltered table when nothing matches
(lines 430-436), otherwise attach the derived columns to the copy and
summarize it.  The shared state is passed through to make the frame effect
of the pass explicit. -/
def risk_assessment_dashboard (cfg : FilterConfig) (s : SharedState) :
    PassResult × SharedState :=
  let filtered := applyFilters cfg s.df
  if filtered.length = 0 then
    (PassResult.emptyState s.df, s)
  else
    let annotated := filtered.map annotate
    (PassResult.report (summarize annotated (s.cols ++ derivedColumns)) annotated, s)

/-- A concrete record used to instantiate the hypothesis-bearing theorems
(spec scenario 1: age 85, MMSE 8, BMI 22, functional assessment 5). -/
def examplePatient : Patient where
  gender := "Male"
  ethnicity := "Caucasian"
  patientAge := some 85
  mmse := some 8
  bmi := some 22
  functionalAssessment := some 5
  activitiesOfDailyLiving := some 6
  depression := some "No"
  memoryComplaints := some "No"
  behavioralProblems := some "No"
  personalityChanges := some "No"
  difficultyCompletingTasks := some "No"
  cardiovascularDisease := some "No"
  physicalActivity := some 5
  smoking := some "No"
  alcoholConsumption := some 2
  dietQuality := some 7
  diagnosis := some "No"

/-- A second concrete record (younger, cognitively healthy). -/
def examplePatientTwo : Patient where
  gender := "Female"
  ethnicity := "Caucasian"
  patientAge := some 65
  mmse := some 29
  bmi := some 24
  functionalAssessment := some 8
  activitiesOfDailyLiving := some 9
  depression := some "No"
  memoryComplaints := some "No"
  behavioralProblems := some "No"
  personalityChanges := some "No"
  difficultyCompletingTasks := some "No"
  cardiovascularDisease := some "No"
  physicalActivity := some 6
  smoking := some "No"
  alcoholConsumption := some 1
  dietQuality := some 8
  diagnosis := some "No"

/-- The example record with a NaN MMSE cell (mandatory attribute missing). -/
def nanMmsePatient : Patient :=
  { examplePatient with mmse := none }

/-- The column set of the processed dataset the dashboard loads. -/
def dfColumns : List String :=
  ["Patient_Age", "Gender", "Ethnicity", "MMSE", "BMI", "Cholesterol_Total",
   "Functional_Assessment", "Activities_Of_Daily_Living", "Depression",
   "Memory_Complaints", "Behavioral_Problems", "Personality_Changes",
   "Difficulty_Completing_Tasks", "Cardiovascular_Disease", "Physical_Activity",
   "Smoking", "Alcohol_Consumption", "Diet_Quality", "Diagnosis"]

/-- A concrete shared state holding two records. -/
def exampleState : SharedState where
  df := [examplePatient, examplePatientTwo]
  cols := dfColumns

/-- Spec scenario 4: a filter configuration whose age range (200, 210)
excludes every record; every other constraint is inactive. -/
def excludingConfig : FilterConfig :=
  { noOpConfig exampleState.df with ageRange := (200, 210) }

lemma ageRisk_tenth (a : Option ℚ) : ∃ n : ℕ, ageRisk a = n / 10 := by
  unfold ageRisk
  split
  · exact ⟨35, by norm_num⟩
  split
  · exact ⟨30, by norm_num⟩
  split
  · exact ⟨25, by norm_num⟩
  split
  · exact ⟨20, by norm_num⟩
  exact ⟨10, by norm_num⟩

lemma mmseRisk_tenth (m : Option ℚ) : ∃ n : ℕ, mmseRisk m = n / 10 := by
  unfold mmseRisk
  split
  · exact ⟨35, by norm_num⟩
  split
  · exact ⟨30, by norm_num⟩
  split
  · exact ⟨20, by norm_num⟩
  split
  · exact ⟨10, by norm_num⟩
  exact ⟨5, by norm_num⟩

lemma functionalRisk_tenth (f : Option ℚ) : ∃ n : ℕ, functionalRisk f = n / 10 := by
  cases f with
  | none => exact ⟨0, by norm_num [functionalRisk]⟩
  | some v =>
    simp only [functionalRisk]
    split
    · exact ⟨20, by norm_num⟩
    split
    · exact ⟨15, by norm_num⟩
    split
    · exact ⟨10, by norm_num⟩
    exact ⟨5, by norm_num⟩

lemma adlRisk_tenth (f : Option ℚ) : ∃ n : ℕ, adlRisk f = n / 10 := by
  cases f with
  | none => exact ⟨0, by norm_num [adlRisk]⟩
  | some v =>
    simp only [adlRisk]
    split
    · exact ⟨15, by norm_num⟩
    split
    · exact ⟨10, by norm_num⟩
    exact ⟨3, by norm_num⟩

lemma depressionRisk_tenth (s : Option String) : ∃ n : ℕ, depressionRisk s = n / 10 := by
  cases s with
  | none => exact ⟨0, by norm_num [depressionRisk]⟩
  | some v =>
    simp only [depressionRisk]
    split
    · exact ⟨12, by norm_num⟩
    · exact ⟨2, by norm_num⟩

lemma memoryRisk_tenth (s : Option String) : ∃ n : ℕ, memoryRisk s = n / 10 := by
  cases s with
  | none => exact ⟨0, by norm_num [memoryRisk]⟩
  | some v =>
    simp only [memoryRisk]
    split
    · exact ⟨12, by norm_num⟩
    · exact ⟨1, by norm_num⟩

lemma behavioralRisk_tenth (s : Option String) : ∃ n : ℕ, behavioralRisk s = n / 10 := by
  cases s with
  | none => exact ⟨0, by norm_num [behavioralRisk]⟩
  | some v =>
    simp only [behavioralRisk]
    split
    · exact ⟨8, by norm_num⟩
    · exact ⟨0, by norm_num⟩

lemma personalityRisk_tenth (s : Option String) : ∃ n : ℕ, personalityRisk s = n / 10 := by
  cases s with
  | none => exact ⟨0, by norm_num [personalityRisk]⟩
  | some v =>
    simp only [personalityRisk]
    split
    · exact ⟨8, by norm_num⟩
    · exact ⟨0, by norm_num⟩

lemma tasksRisk_tenth (s : Option String) : ∃ n : ℕ, tasksRisk s = n / 10 := by
  cases s with
  | none => exact ⟨0, by norm_num [tasksRisk]⟩
  | some v =>
    simp only [tasksRisk]
    split
    · exact ⟨8, by norm_num⟩
    · exact ⟨0, by norm_num⟩

lemma bmiRisk_tenth (b : Option ℚ) : ∃ n : ℕ, bmiRisk b = n / 10 := by
  unfold bmiRisk
  split
  · exact ⟨8, by norm_num⟩
  split
  · exact ⟨5, by norm_num⟩
  exact ⟨2, by norm_num⟩

lemma cvdRisk_tenth (s : Option String) : ∃ n : ℕ, cvdRisk s = n / 10 := by
  cases s with
  | none => exact ⟨0, by norm_num [cvdRisk]⟩
  | some v =>
    simp only [cvdRisk]
    split
    · exact ⟨6, by norm_num⟩
    · exact ⟨0, by norm_num⟩

lemma activityRisk_tenth (f : Option ℚ) : ∃ n : ℕ, activityRisk f = n / 10 := by
  cases f with
  | none => exact ⟨0, by norm_num [activityRisk]⟩
  | some v =>
    simp only [activityRisk]
    split
    · exact ⟨6, by norm_num⟩
    split
    · exact ⟨4, by norm_num⟩
    exact ⟨1, by norm_num⟩

lemma smokingRisk_tenth (s : Option String) : ∃ n : ℕ, smokingRisk s = n / 10 := by
  cases s with
  | none => exact ⟨0, by norm_num [smokingRisk]⟩
  | some v =>
    simp only [smokingRisk]
    split
    · exact ⟨4, by norm_num⟩
    · exact ⟨0, by norm_num⟩

lemma dietRisk_tenth (f : Option ℚ) : ∃ n : ℕ, dietRisk f = n / 10 := by
  cases f with
  | none => exact ⟨0, by norm_num [dietRisk]⟩
  | some v =>
    simp only [dietRisk]
    split
    · exact ⟨4, by norm_num⟩
    split
    · exact ⟨2, by norm_num⟩
    exact ⟨0, by norm_num⟩

lemma rawRiskScore_tenth (r : Patient) : ∃ n : ℕ, rawRiskScore r = n / 10 := by
  obtain ⟨n1, h1⟩ := ageRisk_tenth r.patientAge
  obtain ⟨n2, h2⟩ := mmseRisk_tenth r.mmse
  obtain ⟨n3, h3⟩ := functionalRisk_tenth r.functionalAssessment
  obtain ⟨n4, h4⟩ := adlRisk_tenth r.activitiesOfDailyLiving
  obtain ⟨n5, h5⟩ := depressionRisk_tenth r.depression
  obtain ⟨n6, h6⟩ := memoryRisk_tenth r.memoryComplaints
  obtain ⟨n7, h7⟩ := behavioralRisk_tenth r.behavioralProblems
  obtain ⟨n8, h8⟩ := personalityRisk_tenth r.personalityChanges
  obtain ⟨n9, h9⟩ := tasksRisk_tenth r.difficultyCompletingTasks
  obtain ⟨n10, h10⟩ := bmiRisk_tenth r.bmi
  obtain ⟨n11, h11⟩ := cvdRisk_tenth r.cardiovascularDisease
  obtain ⟨n12, h12⟩ := activityRisk_tenth r.physicalActivity
  obtain ⟨n13, h13⟩ := smokingRisk_tenth r.smoking
  obtain ⟨n14, h14⟩ := dietRisk_tenth r.dietQuality
  refine ⟨n1 + n2 + n3 + n4 + n5 + n6 + n7 + n8 + n9 + n10 + n11 + n12 + n13 + n14, ?_⟩
  unfold rawRiskScore
  rw [h1, h2, h3, h4, h5, h6, h7, h8, h9, h10, h11, h12, h13, h14]
  push_cast
  ring

lemma roundHalfEven_intCast (z : ℤ) : roundHalfEven (z : ℚ) = z := by
  unfold roundHalfEven
  rw [Int.floor_intCast]
  norm_num

lemma pyRound2_tenth (n : ℕ) : pyRound2 ((n : ℚ) / 10) = n / 10 := by
  unfold pyRound2
  have h : ((n : ℚ) / 10) * 100 = ((10 * n : ℤ) : ℚ) := by push_cast; ring
  rw [h, roundHalfEven_intCast]
  push_cast
  ring

lemma calculate_risk_score_eq_raw (r : Patient) :
    calculate_risk_score r = rawRiskScore r := by
  obtain ⟨n, hn⟩ := rawRiskScore_tenth r
  unfold calculate_risk_score
  rw [hn, pyRound2_tenth]

lemma mmseRisk_ge_half (m : Option ℚ) : 1/2 ≤ mmseRisk m := by
  unfold mmseRisk
  split
  · norm_num
  split
  · norm_num
  split
  · norm_num
  split
  · norm_num
  norm_num

lemma ageRisk_ge_one (a : Option ℚ) : 1 ≤ ageRisk a := by
  unfold ageRisk
  split
  · norm_num
  split
  · norm_num
  split
  · norm_num
  split
  · norm_num
  norm_num

lemma bmiRisk_ge_fifth (b : Option ℚ) : 1/5 ≤ bmiRisk b := by
  unfold bmiRisk
  split
  · norm_num
  split
  · norm_num
  norm_num

lemma tenth_nonneg {q : ℚ} (h : ∃ n : ℕ, q = n / 10) : 0 ≤ q := by
  obtain ⟨n, rfl⟩ := h
  positivity

lemma ageRisk_eq_bucketValue (a : Option ℚ) : ageRisk a = bucketValue (ageBucket a) := by
  unfold ageRisk ageBucket bucketValue
  by_cases h1 : pyGe a 85 = true
  · simp [h1]
  · by_cases h2 : pyGe a 80 = true
    · simp [h1, h2]
    · by_cases h3 : pyGe a 75 = true
      · simp [h1, h2, h3]
      · by_cases h4 : pyGe a 70 = true
        · simp [h1, h2, h3, h4]
        · simp [h1, h2, h3, h4]

lemma ageBucket_le_four (a : Option ℚ) : ageBucket a ≤ 4 := by
  unfold ageBucket
  split
  · norm_num
  split
  · norm_num
  split
  · norm_num
  split
  · norm_num
  norm_num

lemma bucketValue_mono {i j : ℕ} (hi : i ≤ 4) (hj : j ≤ i) :
    bucketValue j ≤ bucketValue i := by
  interval_cases i <;> interval_cases j <;> norm_num [bucketValue]

lemma ageRisk_mono {a b : Option ℚ} (h : ageBucket b ≤ ageBucket a) :
    ageRisk b ≤ ageRisk a := by
  rw [ageRisk_eq_bucketValue, ageRisk_eq_bucketValue]
  exact bucketValue_mono (ageBucket_le_four a) h

/-- C1: `categorize_risk` is total over all scores, returns exactly one of the
three tiers, and the tiers are characterized by score >= 9 (High),
6 <= score < 9 (Medium), and score < 6 (Low, the catch-all). -/
theorem categorize_risk_spec (s : ℚ) :
    (categorize_risk s = "High Risk" ∨ categorize_risk s = "Medium Risk" ∨
      categorize_risk s = "Low Risk") ∧
    (categorize_risk s = "High Risk" ↔ 9 ≤ s) ∧
    (categorize_risk s = "Medium Risk" ↔ 6 ≤ s ∧ s < 9) ∧
    (categorize_risk s = "Low Risk" ↔ s < 6) := by
  unfold categorize_risk
  rcases le_or_lt 9 s with h9 | h9
  · rw [if_pos (show s ≥ 9 from h9)]
    refine ⟨Or.inl rfl, ⟨fun _ => h9, fun _ => rfl⟩, ?_, ?_⟩
    · exact ⟨fun h => absurd h (by decide), fun h => absurd h9 (not_le.mpr h.2)⟩
    · exact ⟨fun h => absurd h (by decide), fun h => absurd h9 (not_le.mpr (by linarith))⟩
  · rw [if_neg (show ¬ s ≥ 9 from not_le.mpr h9)]
    rcases le_or_lt 6 s with h6 | h6
    · rw [if_pos (show s ≥ 6 from h6)]
      refine ⟨Or.inr (Or.inl rfl), ?_, ⟨fun _ => ⟨h6, h9⟩, fun _ => rfl⟩, ?_⟩
      · exact ⟨fun h => absurd h (by decide), fun h => absurd h9 (not_lt.mpr h)⟩
      · exact ⟨fun h => absurd h (by decide), fun h => absurd h6 (not_le.mpr h)⟩
    · rw [if_neg (show ¬ s ≥ 6 from not_le.mpr h6)]
      refine ⟨Or.inr (Or.inr rfl), ?_, ?_, ⟨fun _ => h6, fun _ => rfl⟩⟩
      · exact ⟨fun h => absurd h (by decide),
          fun h => absurd h6 (not_lt.mpr (show (6 : ℚ) ≤ s by linarith))⟩
      · exact ⟨fun h => absurd h (by decide), fun h => absurd h6 (not_lt.mpr h.1)⟩

/-- C1 witness: the classifier evaluated at concrete scores on both sides of
each boundary. -/
theorem categorize_risk_spec_witness :
    categorize_risk 9 = "High Risk" ∧ categorize_risk (89/10) = "Medium Risk" ∧
    categorize_risk 6 = "Medium Risk" ∧ categorize_risk (59/10) = "Low Risk" :=
  ⟨(categorize_risk_spec 9).2.1.mpr (by norm_num),
   (categorize_risk_spec (89/10)).2.2.1.mpr (by norm_num),
   (categorize_risk_spec 6).2.2.1.mpr (by norm_num),
   (categorize_risk_spec (59/10)).2.2.2.mpr (by norm_num)⟩

/-- C2: the early-detection flag is true iff MMSE < 18 or age > 75 or
BMI > 35 or functional assessment <= 3 (each clause requiring an actual,
non-NaN value); in particular MMSE < 18 alone forces the flag, and an MMSE
of exactly 18 does not trigger the cognitive clause. -/
theorem early_detection_spec (r : Patient) :
    (earlyDetectionFlag r = true ↔
      (∃ m, r.mmse = some m ∧ m < 18) ∨ (∃ a, r.patientAge = some a ∧ 75 < a) ∨
        (∃ b, r.bmi = some b ∧ 35 < b) ∨
        (∃ f, r.functionalAssessment = some f ∧ f ≤ 3)) ∧
    (∀ m, r.mmse = some m → m < 18 → earlyDetectionFlag r = true) ∧
    (r.mmse = some 18 → pyLt r.mmse 18 = false) := by
  refine ⟨?_, ?_, ?_⟩
  · rcases r with ⟨g, e, pa, mm, bm, fa, adl, dep, mem, beh, per, tas, cvd, phys, smo, alc, diet, diag⟩
    simp only [earlyDetectionFlag, pyLt, pyGt, pyLe]
    cases mm <;> cases pa <;> cases bm <;> cases fa <;> simp [or_assoc]
  · intro m hm hlt
    simp [earlyDetectionFlag, pyLt, hm, hlt]
  · intro h
    simp [pyLt, h]

/-- C2 witness: the flag fires on the concrete example record from its MMSE
of 8 alone. -/
theorem early_detection_spec_witness : earlyDetectionFlag examplePatient = true :=
  (early_detection_spec examplePatient).2.1 8 rfl (by norm_num)

/-- C3: on a record whose mandatory attributes (age, MMSE, BMI) hold actual
numbers, `calculate_risk_score` is non-negative and an integer multiple of
1/100 after the final rounding. -/
theorem risk_score_nonneg_hundredth (r : Patient)
    (_hage : r.patientAge.isSome = true) (_hmmse : r.mmse.isSome = true)
    (_hbmi : r.bmi.isSome = true) :
    0 ≤ calculate_risk_score r ∧ ∃ k : ℤ, calculate_risk_score r = (k : ℚ) / 100 := by
  obtain ⟨n, hn⟩ := rawRiskScore_tenth r
  rw [calculate_risk_score_eq_raw, hn]
  constructor
  · positivity
  · exact ⟨10 * n, by push_cast; ring⟩

/-- C3 witness: the property instantiated at the concrete example record. -/
theorem risk_score_nonneg_hundredth_witness :
    0 ≤ calculate_risk_score examplePatient ∧
      ∃ k : ℤ, calculate_risk_score examplePatient = (k : ℚ) / 100 :=
  risk_score_nonneg_hundredth examplePatient rfl rfl rfl

/-- C10: every scored record (mandatory attributes present and numeric) gets
at least 1.7, because the age, MMSE and BMI factors contribute at least
1.0, 0.5 and 0.2 respectively and every other factor is non-negative. -/
theorem risk_score_floor (r : Patient)
    (_hage : r.patientAge.isSome = true) (_hmmse : r.mmse.isSome = true)
    (_hbmi : r.bmi.isSome = true) :
    17/10 ≤ calculate_risk_score r := by
  rw [calculate_risk_score_eq_raw]
  unfold rawRiskScore
  have h1 := ageRisk_ge_one r.patientAge
  have h2 := mmseRisk_ge_half r.mmse
  have h3 := bmiRisk_ge_fifth r.bmi
  have h4 := tenth_nonneg (functionalRisk_tenth r.functionalAssessment)
  have h5 := tenth_nonneg (adlRisk_tenth r.activitiesOfDailyLiving)
  have h6 := tenth_nonneg (depressionRisk_tenth r.depression)
  have h7 := tenth_nonneg (memoryRisk_tenth r.memoryComplaints)
  have h8 := tenth_nonneg (behavioralRisk_tenth r.behavioralProblems)
  have h9 := tenth_nonneg (personalityRisk_tenth r.personalityChanges)
  have h10 := tenth_nonneg (tasksRisk_tenth r.difficultyCompletingTasks)
  have h11 := tenth_nonneg (cvdRisk_tenth r.cardiovascularDisease)
  have h12 := tenth_nonneg (activityRisk_tenth r.physicalActivity)
  have h13 := tenth_nonneg (smokingRisk_tenth r.smoking)
  have h14 := tenth_nonneg (dietRisk_tenth r.dietQuality)
  linarith

/-- C10 witness: the floor instantiated at the concrete example record. -/
theorem risk_score_floor_witness : 17/10 ≤ calculate_risk_score examplePatient :=
  risk_score_floor examplePatient rfl rfl rfl

/-- C4: holding every other field fixed, moving a record's age to a bucket at
least as severe (boundaries 85/80/75/70) never decreases the risk score. -/
theorem risk_score_age_monotone (r : Patient) (a b : Option ℚ)
    (h : ageBucket b ≤ ageBucket a) :
    calculate_risk_score { r with patientAge := b } ≤
      calculate_risk_score { r with patientAge := a } := by
  rw [calculate_risk_score_eq_raw, calculate_risk_score_eq_raw]
  have hm : ageRisk b ≤ ageRisk a := ageRisk_mono h
  unfold rawRiskScore
  dsimp only
  linarith

/-- C4 witness: ages 90 and 72 on the example record. -/
theorem risk_score_age_monotone_witness :
    calculate_risk_score { examplePatient with patientAge := some 72 } ≤
      calculate_risk_score { examplePatient with patientAge := some 90 } :=
  risk_score_age_monotone examplePatient (some 90) (some 72) (by decide)

/-- C6 counterexample: on a record whose mandatory MMSE cell is NaN the
scorer does not fail at all: it returns 5.9, with the MMSE factor falling
through every `<` comparison to the least-severe bucket worth 0.5. -/
theorem scorer_nan_counterexample :
    nanMmsePatient.mmse = none ∧ mmseRisk nanMmsePatient.mmse = 1/2 ∧
    calculate_risk_score nanMmsePatient = 59/10 := by
  have hNo : truthy "No" = false := by decide
  refine ⟨rfl, by norm_num [nanMmsePatient, examplePatient, mmseRisk, pyLt], ?_⟩
  rw [calculate_risk_score_eq_raw]
  norm_num [rawRiskScore, nanMmsePatient, examplePatient, ageRisk, mmseRisk,
    functionalRisk, adlRisk, depressionRisk, memoryRisk, behavioralRisk,
    personalityRisk, tasksRisk, bmiRisk, cvdRisk, activityRisk, smokingRisk,
    dietRisk, pyGe, pyGt, pyLt, hNo]

/-- C6 amended: a NaN mandatory attribute is not a failure; every comparison
against it is false, so the age, MMSE and BMI factors contribute their final
else-branch values 1.0, 0.5 and 0.2 (not zero, and no error is raised). -/
theorem scorer_nan_defaults (r : Patient) :
    (r.patientAge = none → ageRisk r.patientAge = 1) ∧
    (r.mmse = none → mmseRisk r.mmse = 1/2) ∧
    (r.bmi = none → bmiRisk r.bmi = 1/5) := by
  refine ⟨fun h => ?_, fun h => ?_, fun h => ?_⟩
  · simp [h, ageRisk, pyGe]
  · simp [h, mmseRisk, pyLt]
  · simp [h, bmiRisk, pyGt, pyLt]

/-- C6 amended witness: the NaN-MMSE record takes the 0.5 default. -/
theorem scorer_nan_defaults_witness : mmseRisk nanMmsePatient.mmse = 1/2 :=
  (scorer_nan_defaults nanMmsePatient).2.1 rfl

lemma catStep_eq (c : Prop) [Decidable c] (p : Patient → Bool) (l : List Patient) :
    catStep c p l = l.filter (catPass c p) := by
  unfold catStep catPass
  by_cases h : c
  · rw [if_pos h]
    have hd : decide c = true := decide_eq_true h
    refine List.filter_congr ?_
    intro x _
    rw [hd]
    simp
  · rw [if_neg h]
    have hd : decide c = false := decide_eq_false h
    simp [hd]

lemma optRangeStep_eq (f : Patient → Option ℚ) (o : Option (ℚ × ℚ)) (l : List Patient) :
    optRangeStep f o l = l.filter (optRangePass f o) := by
  cases o with
  | none => exact (List.filter_eq_self.mpr fun a _ => rfl).symm
  | some rg => rfl

lemma bool_eq_of_iff {a b : Bool} (h : a = true ↔ b = true) : a = b := by
  cases a <;> cases b <;> simp_all

lemma applyFilters_eq_filter (cfg : FilterConfig) (rows : List Patient) :
    applyFilters cfg rows = rows.filter (rowPasses cfg) := by
  unfold applyFilters
  simp only [catStep_eq, optRangeStep_eq, rangeStep, List.filter_filter]
  refine List.filter_congr ?_
  intro r _
  refine bool_eq_of_iff ?_
  unfold rowPasses
  simp only [Bool.and_eq_true]
  tauto

lemma applyFilters_comm (c₁ c₂ : FilterConfig) (rows : List Patient) :
    applyFilters c₁ (applyFilters c₂ rows) = applyFilters c₂ (applyFilters c₁ rows) := by
  rw [applyFilters_eq_filter, applyFilters_eq_filter, applyFilters_eq_filter,
    applyFilters_eq_filter, List.filter_filter, List.filter_filter]
  refine List.filter_congr ?_
  intro r _
  exact Bool.and_comm _ _

lemma foldl_min_le_init (xs : List ℚ) (x : ℚ) : xs.foldl min x ≤ x := by
  induction xs generalizing x with
  | nil => exact le_refl x
  | cons a xs ih => exact le_trans (ih (min x a)) (min_le_left x a)

lemma foldl_min_le_mem {y : ℚ} (xs : List ℚ) (x : ℚ) (hy : y ∈ xs) :
    xs.foldl min x ≤ y := by
  induction xs generalizing x with
  | nil => cases hy
  | cons a xs ih =>
    rcases List.mem_cons.mp hy with rfl | hmem
    · exact le_trans (foldl_min_le_init xs (min x y)) (min_le_right x y)
    · exact ih (min x a) hmem

lemma listMin_le_of_mem {x : ℚ} {l : List ℚ} (h : x ∈ l) :
    ∃ m, listMin l = some m ∧ m ≤ x := by
  cases l with
  | nil => cases h
  | cons a xs =>
    refine ⟨xs.foldl min a, rfl, ?_⟩
    rcases List.mem_cons.mp h with rfl | hmem
    · exact foldl_min_le_init xs x
    · exact foldl_min_le_mem xs a hmem

lemma init_le_foldl_max (xs : List ℚ) (x : ℚ) : x ≤ xs.foldl max x := by
  induction xs generalizing x with
  | nil => exact le_refl x
  | cons a xs ih => exact le_trans (le_max_left x a) (ih (max x a))

lemma mem_le_foldl_max {y : ℚ} (xs : List ℚ) (x : ℚ) (hy : y ∈ xs) :
    y ≤ xs.foldl max x := by
  induction xs generalizing x with
  | nil => cases hy
  | cons a xs ih =>
    rcases List.mem_cons.mp hy with rfl | hmem
    · exact le_trans (le_max_right x y) (init_le_foldl_max xs (max x y))
    · exact ih (max x a) hmem

lemma le_listMax_of_mem {x : ℚ} {l : List ℚ} (h : x ∈ l) :
    ∃ m, listMax l = some m ∧ x ≤ m := by
  cases l with
  | nil => cases h
  | cons a xs =>
    refine ⟨xs.foldl max a, rfl, ?_⟩
    rcases List.mem_cons.mp h with rfl | hmem
    · exact init_le_foldl_max xs x
    · exact mem_le_foldl_max xs a hmem

lemma fieldMin_le {f : Patient → Option ℚ} {rows : List Patient} {r : Patient} {x : ℚ}
    (hr : r ∈ rows) (hx : f r = some x) : fieldMin f rows ≤ x := by
  have hmem : x ∈ rows.filterMap f := List.mem_filterMap.mpr ⟨r, hr, hx⟩
  obtain ⟨m, hm, hle⟩ := listMin_le_of_mem hmem
  unfold fieldMin
  rw [hm]
  exact hle

lemma le_fieldMax {f : Patient → Option ℚ} {rows : List Patient} {r : Patient} {x : ℚ}
    (hr : r ∈ rows) (hx : f r = some x) : x ≤ fieldMax f rows := by
  have hmem : x ∈ rows.filterMap f := List.mem_filterMap.mpr ⟨r, hr, hx⟩
  obtain ⟨m, hm, hle⟩ := le_listMax_of_mem hmem
  unfold fieldMax
  rw [hm]
  exact hle

lemma pyGe_some {x c : ℚ} (h : c ≤ x) : pyGe (some x) c = true := by
  simp [pyGe, h]

lemma pyLe_some {x c : ℚ} (h : x ≤ c) : pyLe (some x) c = true := by
  simp [pyLe, h]

lemma fullRangePass {f : Patient → Option ℚ} {rows : List Patient} {r : Patient}
    (hr : r ∈ rows) (hx : (f r).isSome = true) :
    rangePass f (fullRange f rows) r = true := by
  obtain ⟨x, hxx⟩ := Option.isSome_iff_exists.mp hx
  unfold rangePass fullRange
  rw [hxx, Bool.and_eq_true]
  exact ⟨pyGe_some (fieldMin_le hr hxx), pyLe_some (le_fieldMax hr hxx)⟩

lemma rowPasses_noOpConfig {rows : List Patient} (hall : ∀ r ∈ rows, numericPresent r)
    {r : Patient} (hr : r ∈ rows) : rowPasses (noOpConfig rows) r = true := by
  obtain ⟨ha, hm, hb, hf, hadl, hact, halc, hdiet⟩ := hall r hr
  unfold rowPasses noOpConfig
  simp only [Bool.and_eq_true]
  refine ⟨⟨⟨⟨⟨⟨⟨⟨⟨⟨⟨⟨⟨⟨⟨⟨⟨?_, ?_⟩, ?_⟩, ?_⟩, ?_⟩, ?_⟩, ?_⟩, ?_⟩, ?_⟩, ?_⟩, ?_⟩, ?_⟩,
    ?_⟩, ?_⟩, ?_⟩, ?_⟩, ?_⟩, ?_⟩
  · simp [catPass]
  · simp [catPass]
  · exact fullRangePass hr ha
  · simp [catPass]
  · simp [catPass]
  · simp [catPass]
  · simp [catPass]
  · simp [catPass]
  · simp [catPass]
  · simp [catPass]
  · exact fullRangePass hr hb
  · exact fullRangePass hr hact
  · exact fullRangePass hr halc
  · exact fullRangePass hr hdiet
  · exact fullRangePass hr hm
  · exact fullRangePass hr hf
  · exact fullRangePass hr hadl
  · simp [catPass]

/-- C5: the filter cascade computes exactly the rows satisfying the
conjunction of all active constraints; any two configurations commute; and
the all-"All", full-observed-range configuration filters nothing when every
ranged cell holds an actual number. -/
theorem population_filter_spec :
    (∀ cfg rows, applyFilters cfg rows = rows.filter (rowPasses cfg)) ∧
    (∀ c₁ c₂ rows, applyFilters c₁ (applyFilters c₂ rows) =
      applyFilters c₂ (applyFilters c₁ rows)) ∧
    (∀ rows, (∀ r ∈ rows, numericPresent r) →
      applyFilters (noOpConfig rows) rows = rows) := by
  refine ⟨applyFilters_eq_filter, applyFilters_comm, ?_⟩
  intro rows hall
  rw [applyFilters_eq_filter]
  exact List.filter_eq_self.mpr fun r hr => rowPasses_noOpConfig hall hr

/-- C5 witness: the no-op configuration leaves the concrete two-record table
unchanged, and two configurations commute on it. -/
theorem population_filter_spec_witness :
    applyFilters (noOpConfig exampleState.df) exampleState.df = exampleState.df ∧
    applyFilters excludingConfig (applyFilters (noOpConfig exampleState.df) exampleState.df) =
      applyFilters (noOpConfig exampleState.df) (applyFilters excludingConfig exampleState.df) :=
  ⟨population_filter_spec.2.2 exampleState.df (by decide),
   population_filter_spec.2.1 excludingConfig (noOpConfig exampleState.df) exampleState.df⟩

/-- C9: one full recomputation pass leaves the shared state (the source table
and its columns) untouched, and the report it renders is built from a fresh
annotation of the filtered copy of the source rows. -/
theorem dashboard_preserves_source (cfg : FilterConfig) (s : SharedState) :
    (risk_assessment_dashboard cfg s).2 = s ∧
    (applyFilters cfg s.df ≠ [] →
      (risk_assessment_dashboard cfg s).1 =
        PassResult.report
          (summarize ((applyFilters cfg s.df).map annotate) (s.cols ++ derivedColumns))
          ((applyFilters cfg s.df).map annotate)) := by
  unfold risk_assessment_dashboard
  constructor
  · dsimp only
    split <;> rfl
  · intro h
    have hne : ¬ (applyFilters cfg s.df).length = 0 := by
      simpa [List.length_eq_zero] using h
    dsimp only
    rw [if_neg hne]

/-- C9 witness: the pass on the concrete two-record state returns the state
unchanged together with the report over the annotated filtered copy. -/
theorem dashboard_preserves_source_witness :
    (risk_assessment_dashboard (noOpConfig exampleState.df) exampleState).2 = exampleState ∧
    (risk_assessment_dashboard (noOpConfig exampleState.df) exampleState).1 =
      PassResult.report
        (summarize ((applyFilters (noOpConfig exampleState.df) exampleState.df).map annotate)
          (exampleState.cols ++ derivedColumns))
        ((applyFilters (noOpConfig exampleState.df) exampleState.df).map annotate) :=
  ⟨(dashboard_preserves_source (noOpConfig exampleState.df) exampleState).1,
   (dashboard_preserves_source (noOpConfig exampleState.df) exampleState).2 (by decide)⟩

/-- C7 counterexample: with the age range (200, 210) no record matches, and
the pass returns the empty-state message carrying the unfiltered source
table; no summary — in particular no 0-patient, 0-percent summary — is
produced, because the summarizer branch is never reached. -/
theorem empty_filter_counterexample :
    risk_assessment_dashboard excludingConfig exampleState =
      (PassResult.emptyState exampleState.df, exampleState) := by
  decide

/-- C7 amended: whenever the filters exclude every record, the pass signals
the empty state (an error message plus the unfiltered table) without
crashing and skips the Aggregate Summarizer entirely. -/
theorem empty_filter_amended (cfg : FilterConfig) (s : SharedState)
    (h : applyFilters cfg s.df = []) :
    risk_assessment_dashboard cfg s = (PassResult.emptyState s.df, s) := by
  unfold risk_assessment_dashboard
  rw [h]
  rfl

/-- C7 amended witness: the excluding configuration on the concrete state. -/
theorem empty_filter_amended_witness :
    applyFilters excludingConfig exampleState.df = [] ∧
    risk_assessment_dashboard excludingConfig exampleState =
      (PassResult.emptyState exampleState.df, exampleState) :=
  ⟨by decide, empty_filter_amended excludingConfig exampleState (by decide)⟩

/-- C8 counterexample: a filtered population of exactly 2 records still gets
a correlation heatmap, because the gate checks only that at least 3 of the
fixed variables are available columns — the sample size is not examined. -/
theorem correlation_gate_counterexample :
    correlationSection (dfColumns ++ derivedColumns)
      [annotate examplePatient, annotate examplePatientTwo] =
      CorrelationOutcome.heatmapShown risk_variables 2 := by
  decide

/-- C8 amended: the too-few-data warning of the correlation section fires
exactly when fewer than 3 of the fixed variables are available, independent
of the sample size; only the separate insights expander is gated on having
more than 10 rows. -/
theorem correlation_gate_spec (cols : List String) (filtered : List AnnotatedRow) :
    (correlationSection cols filtered = CorrelationOutcome.notEnoughVariables ↔
      (availableVars cols).length < 3) ∧
    (∀ vars n, correlationSection cols filtered = CorrelationOutcome.heatmapShown vars n →
      vars = availableVars cols ∧ n = filtered.length ∧ 3 ≤ (availableVars cols).length) ∧
    (correlationInsights filtered = InsightOutcome.notEnoughData ↔
      filtered.length ≤ 10) := by
  refine ⟨?_, ?_, ?_⟩
  · unfold correlationSection
    by_cases h : 3 ≤ (availableVars cols).length
    · rw [if_pos h]
      simp only [reduceCtorEq, false_iff]
      omega
    · rw [if_neg h]
      simp only [true_iff]
      omega
  · intro vars n hv
    unfold correlationSection at hv
    by_cases h : 3 ≤ (availableVars cols).length
    · rw [if_pos h] at hv
      injection hv with h1 h2
      exact ⟨h1.symm, h2.symm, h⟩
    · rw [if_neg h] at hv
      simp at hv
  · unfold correlationInsights
    by_cases h : 10 < filtered.length
    · rw [if_pos h]
      simp only [reduceCtorEq, false_iff]
      omega
    · rw [if_neg h]
      simp only [true_iff]
      omega

/-- C8 amended witness: the heatmap branch characterization applied at the
concrete full column set and the empty sample. -/
theorem correlation_gate_spec_witness :
    risk_variables = availableVars (dfColumns ++ derivedColumns) ∧
    (0 : ℕ) = ([] : List AnnotatedRow).length ∧
    3 ≤ (availableVars (dfColumns ++ derivedColumns)).length :=
  (correlation_gate_spec (dfColumns ++ derivedColumns) []).2.1 risk_variables 0 (by decide)

end Dashboard
